import Mathlib

/-!
Verification of the XBRL filings query adapter (`xbrl_mcp_server.py`).

The adapter parses JSON:API response documents.  We embed the JSON
values the adapter manipulates, together with the Python dictionary
operations it uses (`dict.get`, truthiness, `in`, subscription), and
translate `get_filings`, `get_filing` and `get_entity` from the source.
-/

/-- JSON values, as produced by `response.json()`.  Object keys are kept
as an association list; Python dictionaries have unique keys, and every
object built in this development has unique keys. -/
inductive Json where
  | null
  | bool (b : Bool)
  | num (n : Int)
  | str (s : String)
  | arr (xs : List Json)
  | obj (kvs : List (String × Json))
  deriving Repr

mutual

/-- Equality test on JSON values, modelling Python `==` on parsed JSON
(no numeric coercions arise: all values compared by the adapter are
strings or `None`). -/
def Json.beq : Json → Json → Bool
  | .null, .null => true
  | .bool a, .bool b => a == b
  | .num a, .num b => a == b
  | .str a, .str b => a == b
  | .arr a, .arr b => Json.beqList a b
  | .obj a, .obj b => Json.beqObj a b
  | _, _ => false

def Json.beqList : List Json → List Json → Bool
  | [], [] => true
  | x :: xs, y :: ys => Json.beq x y && Json.beqList xs ys
  | _, _ => false

def Json.beqObj : List (String × Json) → List (String × Json) → Bool
  | [], [] => true
  | (k, v) :: xs, (l, w) :: ys => k == l && Json.beq v w && Json.beqObj xs ys
  | _, _ => false

end

instance : BEq Json := ⟨Json.beq⟩

mutual

theorem Json.eq_of_beq : ∀ (a b : Json), Json.beq a b = true → a = b
  | .null, .null, _ => rfl
  | .bool _, .bool _, h => by
      simp only [Json.beq, beq_iff_eq] at h; exact congrArg Json.bool h
  | .num _, .num _, h => by
      simp only [Json.beq, beq_iff_eq] at h; exact congrArg Json.num h
  | .str _, .str _, h => by
      simp only [Json.beq, beq_iff_eq] at h; exact congrArg Json.str h
  | .arr a, .arr b, h => congrArg Json.arr (Json.eqList_of_beq a b h)
  | .obj a, .obj b, h => congrArg Json.obj (Json.eqObj_of_beq a b h)
  | .null, .bool _, h | .null, .num _, h | .null, .str _, h
  | .null, .arr _, h | .null, .obj _, h => nomatch h
  | .bool _, .null, h | .bool _, .num _, h | .bool _, .str _, h
  | .bool _, .arr _, h | .bool _, .obj _, h => nomatch h
  | .num _, .null, h | .num _, .bool _, h | .num _, .str _, h
  | .num _, .arr _, h | .num _, .obj _, h => nomatch h
  | .str _, .null, h | .str _, .bool _, h | .str _, .num _, h
  | .str _, .arr _, h | .str _, .obj _, h => nomatch h
  | .arr _, .null, h | .arr _, .bool _, h | .arr _, .num _, h
  | .arr _, .str _, h | .arr _, .obj _, h => nomatch h
  | .obj _, .null, h | .obj _, .bool _, h | .obj _, .num _, h
  | .obj _, .str _, h | .obj _, .arr _, h => nomatch h

theorem Json.eqList_of_beq : ∀ (a b : List Json), Json.beqList a b = true → a = b
  | [], [], _ => rfl
  | x :: xs, y :: ys, h => by
      simp only [Json.beqList, Bool.and_eq_true] at h
      exact congrArg₂ List.cons (Json.eq_of_beq x y h.1) (Json.eqList_of_beq xs ys h.2)
  | [], _ :: _, h => nomatch h
  | _ :: _, [], h => nomatch h

theorem Json.eqObj_of_beq :
    ∀ (a b : List (String × Json)), Json.beqObj a b = true → a = b
  | [], [], _ => rfl
  | (k, v) :: xs, (l, w) :: ys, h => by
      simp only [Json.beqObj, Bool.and_eq_true, beq_iff_eq] at h
      exact congrArg₂ List.cons
        (by rw [h.1.1, Json.eq_of_beq v w h.1.2]) (Json.eqObj_of_beq xs ys h.2)
  | [], _ :: _, h => nomatch h
  | _ :: _, [], h => nomatch h

end

mutual

theorem Json.beq_refl : ∀ (a : Json), Json.beq a a = true
  | .null => rfl
  | .bool b => by simp [Json.beq]
  | .num n => by simp [Json.beq]
  | .str s => by simp [Json.beq]
  | .arr xs => Json.beqList_refl xs
  | .obj kvs => Json.beqObj_refl kvs

theorem Json.beqList_refl : ∀ (a : List Json), Json.beqList a a = true
  | [] => rfl
  | x :: xs => by
      simp only [Json.beqList, Bool.and_eq_true]
      exact ⟨Json.beq_refl x, Json.beqList_refl xs⟩

theorem Json.beqObj_refl : ∀ (a : List (String × Json)), Json.beqObj a a = true
  | [] => rfl
  | (k, v) :: xs => by
      simp only [Json.beqObj, Bool.and_eq_true]
      exact ⟨⟨by simp, Json.beq_refl v⟩, Json.beqObj_refl xs⟩

end

instance : LawfulBEq Json where
  eq_of_beq h := Json.eq_of_beq _ _ h
  rfl := Json.beq_refl _

instance : DecidableEq Json := fun a b =>
  decidable_of_iff ((a == b) = true) beq_iff_eq

mutual

/-- Normalization underlying Python `==` on JSON values: Python
identifies `True` with `1` and `False` with `0` (also inside lists and
dicts, which `==` compares elementwise with the same coercions), so a
boolean normalizes to its integer value.  All other values compare by
tag and contents.  (JSON floats do not occur in this model: numbers
are integers.) -/
def Json.pyNorm : Json → Json
  | .null => .null
  | .bool b => .num (if b then 1 else 0)
  | .num n => .num n
  | .str s => .str s
  | .arr xs => .arr (Json.pyNormList xs)
  | .obj kvs => .obj (Json.pyNormObj kvs)

def Json.pyNormList : List Json → List Json
  | [] => []
  | x :: xs => Json.pyNorm x :: Json.pyNormList xs

def Json.pyNormObj : List (String × Json) → List (String × Json)
  | [] => []
  | (k, v) :: xs => (k, Json.pyNorm v) :: Json.pyNormObj xs

end

/-- Python `==` on JSON values: equality of normalizations, so
`True == 1` and `False == 0` hold, and everything else compares by tag
and value. -/
def pyEq (a b : Json) : Bool := a.pyNorm == b.pyNorm

theorem pyEq_norm {a b : Json} (h : pyEq a b = true) : a.pyNorm = b.pyNorm :=
  eq_of_beq h

theorem pyEq_of_norm {a b : Json} (h : a.pyNorm = b.pyNorm) : pyEq a b = true := by
  simp [pyEq, h]

theorem pyEq_refl (a : Json) : pyEq a a = true := by simp [pyEq]

theorem pyEq_false_symm {a b : Json} (h : pyEq a b = false) : pyEq b a = false := by
  cases hba : pyEq b a
  · rfl
  · rw [pyEq_of_norm (pyEq_norm hba).symm] at h
    exact nomatch h

theorem pyEq_trans_left {p i k : Json} (hpk : pyEq p k = true)
    (hpi : pyEq p i = true) : pyEq i k = true :=
  pyEq_of_norm ((pyEq_norm hpi).symm.trans (pyEq_norm hpk))

/-- Python hashability of a JSON value: lists and dicts are unhashable,
so using one as a dict key (`d[k] = v`, `k in d`, `d[k]`) raises
`TypeError`; `None`, booleans, numbers and strings are hashable. -/
def Json.hashable : Json → Bool
  | .arr _ => false
  | .obj _ => false
  | _ => true

/-! ## Python semantics layer

Errors raised while processing a response.  `exn msg` is an explicitly
raised `Exception(msg)`; `typeErr` stands for the interpreter-raised
errors (`AttributeError`, `TypeError`, `KeyError`) coming from using a
non-dict as a dict, a non-iterable as an iterable, and so on. -/
inductive PyErr where
  | exn (msg : String)
  | typeErr
  deriving DecidableEq, Repr

/-- Python truthiness of a JSON value (`None`, `False`, `0`, `""`, `[]`,
`{}` are falsy). -/
def Json.truthy : Json → Bool
  | .null => false
  | .bool b => b
  | .num n => n != 0
  | .str s => s != ""
  | .arr xs => !xs.isEmpty
  | .obj kvs => !kvs.isEmpty

/-- Key lookup in an object's association list (Python dict lookup;
keys are unique in every dict the adapter builds or parses). -/
def objLookup (kvs : List (String × Json)) (k : String) : Option Json :=
  (kvs.find? (fun p => p.1 == k)).map (fun p => p.2)

/-- Python `x.get(k, d)`: raises (`AttributeError`) when `x` is not a
dict, otherwise the value at `k`, defaulting to `d`. -/
def pyGet (j : Json) (k : String) (d : Json) : Except PyErr Json :=
  match j with
  | .obj kvs => .ok ((objLookup kvs k).getD d)
  | _ => .error .typeErr

/-- Python `x[k]`: raises when `x` is not a dict (`TypeError`) or the
key is absent (`KeyError`). -/
def pySub (j : Json) (k : String) : Except PyErr Json :=
  match j with
  | .obj kvs =>
    match objLookup kvs k with
    | some v => .ok v
    | none => .error .typeErr
  | _ => .error .typeErr

/-- Python `for x in j`: lists and their elements; dicts iterate their
keys; strings iterate their characters; `None`, booleans and numbers
raise `TypeError`. -/
def pyIter : Json → Except PyErr (List Json)
  | .arr xs => .ok xs
  | .obj kvs => .ok (kvs.map (fun p => .str p.1))
  | .str s => .ok (s.data.map (fun c => .str (String.mk [c])))
  | _ => .error .typeErr

/-- Python `'T' in v`: substring test on strings (a one-character
needle, so character membership), element membership on lists, key
membership on dicts; `TypeError` otherwise. -/
def pyContainsT : Json → Except PyErr Bool
  | .str s => .ok (s.data.contains 'T')
  | .arr xs => .ok (xs.any (fun v => v == .str "T"))
  | .obj kvs => .ok (kvs.any (fun p => p.1 == "T"))
  | _ => .error .typeErr

/-- Python `s.split('T')[0]`: the prefix of `s` before the first `'T'`
(the whole of `s` when `'T'` does not occur). -/
def splitTHead (s : String) : String :=
  String.mk (s.data.takeWhile (fun c => c != 'T'))

/-! ## The adapter's data model -/

/-- The flattened filing dictionary returned by `get_filings` /
`get_filing` (source lines 132-140 and 189-197). -/
structure FilingRecord where
  id : Json
  entity_name : Json
  processed_date : Option String
  country : Json
  report_url : Json
  errors_count : Json
  warnings_count : Json
  deriving DecidableEq, Repr

/-- The flattened entity dictionary returned by `get_entity`
(source lines 223-229). -/
structure EntityRecord where
  id : Json
  name : Json
  lei : Json
  cik : Json
  sic : Json
  deriving DecidableEq, Repr

/-! ## Embedded operations -/

/-- Lookup in the `included_entities` dict (keys are the raw `id`
values, hashable by construction): Python dict lookup identifies keys
under `==` (so `True` and `1` collide), modelled by `pyEq`. -/
def dictFind (tbl : List (Json × Json)) (k : Json) : Option Json :=
  (tbl.find? (fun p => pyEq p.1 k)).map (fun p => p.2)

/-- Python `d[k] = v` on a dict kept as an association list whose keys
are pairwise `pyEq`-distinct: when a stored key equals `k` under
Python `==`, that entry's value is updated (CPython keeps the original
key object); otherwise the pair is appended.  Unhashable keys are
rejected by the caller before insertion. -/
def dictInsert (tbl : List (Json × Json)) (k : Json) (v : Json) : List (Json × Json) :=
  if tbl.any (fun p => pyEq p.1 k) then
    tbl.map (fun p => if pyEq p.1 k then (p.1, v) else p)
  else tbl ++ [(k, v)]

/-- Source lines 105-108: build `included_entities`, mapping each
included resource of type `"entities"` to its `attributes`
(`item["id"]` raises when the id is absent, and the assignment
`included_entities[item["id"]] = ...` raises `TypeError` when the id
is unhashable — a list or a dict). -/
def entityTableAux (tbl : List (Json × Json)) :
    List Json → Except PyErr (List (Json × Json))
  | [] => .ok tbl
  | item :: rest => do
      let t ← pyGet item "type" .null
      if t == .str "entities" then do
        let i ← pySub item "id"
        let attrs ← pyGet item "attributes" (.obj [])
        if i.hashable then entityTableAux (dictInsert tbl i attrs) rest
        else .error .typeErr
      else entityTableAux tbl rest

def entityTable (items : List Json) : Except PyErr (List (Json × Json)) :=
  entityTableAux [] items

/-- Source lines 118-120: `filing.get("relationships", {})
.get("entity", {}).get("data", {}).get("id")`. -/
def relEntityId (filing : Json) : Except PyErr Json := do
  let relationships ← pyGet filing "relationships" (.obj [])
  let entityRel ← pyGet relationships "entity" (.obj [])
  let entityData ← pyGet entityRel "data" (.obj [])
  pyGet entityData "id" .null

/-- Source lines 117 and 122-123: `entity_id and entity_id in
included_entities` guards the lookup
`included_entities[entity_id].get("name", "Unknown Entity")`.  The
`and` short-circuits, so a falsy id (including a falsy unhashable one,
`[]` or `{}`) leaves `"Unknown Entity"`; a truthy unhashable id makes
the membership test itself raise `TypeError` (which the per-filing
`except` then catches, skipping the filing); a truthy hashable id is
looked up under Python `==`. -/
def entityNameFor (tbl : List (Json × Json)) (i : Json) : Except PyErr Json :=
  if i.truthy then
    if i.hashable then
      match dictFind tbl i with
      | some attrs => pyGet attrs "name" (.str "Unknown Entity")
      | none => .ok (.str "Unknown Entity")
    else .error .typeErr
  else .ok (.str "Unknown Entity")

/-- Source lines 126-130 and 183-187 (identical text in both
operations): derive `processed_date` from the `processed` attribute. -/
def processedDate (attributes : Json) : Except PyErr (Option String) := do
  let p ← pyGet attributes "processed" (.str "")
  if p.truthy then do
    let c ← pyContainsT p
    if c then
      match p with
      | .str s => .ok (some (splitTHead s))
      | _ => .error .typeErr
    else .ok none
  else .ok none

/-- Source lines 113-140: the body of the per-filing `try` block in
`get_filings`. -/
def processFiling (tbl : List (Json × Json)) (filing : Json) :
    Except PyErr FilingRecord := do
  let attributes ← pyGet filing "attributes" (.obj [])
  let entityId ← relEntityId filing
  let entity_name ← entityNameFor tbl entityId
  let pd ← processedDate attributes
  let idv ← pyGet filing "id" .null
  let country ← pyGet attributes "country" .null
  let report_url ← pyGet attributes "report_url" .null
  let errors_count ← pyGet attributes "errors_count" (.num 0)
  let warnings_count ← pyGet attributes "warnings_count" (.num 0)
  .ok { id := idv, entity_name := entity_name, processed_date := pd,
        country := country, report_url := report_url,
        errors_count := errors_count, warnings_count := warnings_count }

/-- The per-filing `try ... except: continue` (lines 113-144): a failed
filing contributes nothing. -/
def tryProcess (tbl : List (Json × Json)) (f : Json) : Option FilingRecord :=
  match processFiling tbl f with
  | .ok r => some r
  | .error _ => none

/-- Source lines 99-147: `get_filings` applied to the parsed upstream
response body. -/
def getFilings (response : Json) : Except PyErr (List FilingRecord) := do
  if !response.truthy then .ok [] else do
  let d ← pyGet response "data" .null
  if !d.truthy then .ok [] else do
  let includedJ ← pyGet response "included" (.arr [])
  let items ← pyIter includedJ
  let tbl ← entityTable items
  let filings ← pyIter d
  .ok (filings.filterMap (tryProcess tbl))

def notFoundFiling (fid : String) : PyErr :=
  .exn ("Filing with ID '" ++ fid ++ "' not found")

/-- Source lines 176-180: scan `included` for the first resource of
type `"entities"` and take its name (the loop `break`s there). -/
def findEntityName : List Json → Except PyErr Json
  | [] => .ok (.str "Unknown Entity")
  | item :: rest => do
      let t ← pyGet item "type" .null
      if t == .str "entities" then do
        let attrs ← pyGet item "attributes" (.obj [])
        pyGet attrs "name" (.str "Unknown Entity")
      else findEntityName rest

/-- Source lines 161-197: `get_filing` applied to the parsed upstream
response body. -/
def getFiling (filing_id : String) (response : Json) :
    Except PyErr FilingRecord := do
  if !response.truthy then .error (notFoundFiling filing_id) else do
  let d ← pyGet response "data" .null
  if !d.truthy then .error (notFoundFiling filing_id) else do
  let attributes ← pyGet d "attributes" (.obj [])
  let includedJ ← pyGet response "included" (.arr [])
  let items ← pyIter includedJ
  let entity_name ← findEntityName items
  let pd ← processedDate attributes
  let idv ← pyGet d "id" .null
  let country ← pyGet attributes "country" .null
  let report_url ← pyGet attributes "report_url" .null
  let errors_count ← pyGet attributes "errors_count" (.num 0)
  let warnings_count ← pyGet attributes "warnings_count" (.num 0)
  .ok { id := idv, entity_name := entity_name, processed_date := pd,
        country := country, report_url := report_url,
        errors_count := errors_count, warnings_count := warnings_count }

def notFoundEntity (eid : String) : PyErr :=
  .exn ("Entity with ID '" ++ eid ++ "' not found")

/-- Source lines 211-229: `get_entity` applied to the parsed upstream
response body. -/
def getEntity (entity_id : String) (response : Json) :
    Except PyErr EntityRecord := do
  if !response.truthy then .error (notFoundEntity entity_id) else do
  let d ← pyGet response "data" .null
  if !d.truthy then .error (notFoundEntity entity_id) else do
  let attributes ← pyGet d "attributes" (.obj [])
  let idv ← pyGet d "id" .null
  let name ← pyGet attributes "name" .null
  let lei ← pyGet attributes "lei" .null
  let cik ← pyGet attributes "cik" .null
  let sic ← pyGet attributes "sic" .null
  .ok { id := idv, name := name, lei := lei, cik := cik, sic := sic }

/-- Python `s.upper()`: upper-case every character. -/
def pyUpper (s : String) : String := String.mk (s.data.map Char.toUpper)

/-- Python `s.strip()`: drop leading and trailing whitespace. -/
def pyStrip (s : String) : String :=
  String.mk (((s.data.dropWhile Char.isWhitespace).reverse.dropWhile
    Char.isWhitespace).reverse)

/-- Source lines 89-97: the outgoing query parameters of `get_filings`
(`if country:` adds `country.upper().strip()` as the country filter). -/
def buildApiParams (country : Option String) (page_size page_number : Int) :
    List (String × String) :=
  let base := [("page[size]", toString page_size),
               ("page[number]", toString page_number),
               ("sort", "-processed"),
               ("include", "entity")]
  match country with
  | some c => if c != "" then base ++ [("filter[country]", pyStrip (pyUpper c))]
              else base
  | none => base

def paramLookup (params : List (String × String)) (k : String) : Option String :=
  (params.find? (fun p => p.1 == k)).map (fun p => p.2)

/-! ## Claim-side vocabulary

Descriptions of resources as the spec phrases them, independent of the
loop/dict mechanics of the adapter. -/

/-- The value at key `k` of a resource object (`none` when the resource
is not an object or lacks the key). -/
def objAttr (e : Json) (k : String) : Option Json :=
  match e with
  | .obj kvs => objLookup kvs k
  | _ => none

/-- A resource of type `"entities"`. -/
def isEntitiesType (e : Json) : Bool :=
  objAttr e "type" == some (.str "entities")

/-- A resource of type `"entities"` whose id equals `i` as Python
values (`==`, so `True` matches `1`). -/
def isEntityWithId (i : Json) (e : Json) : Bool :=
  isEntitiesType e &&
    (match objAttr e "id" with
     | some idv => pyEq idv i
     | none => false)

/-- A resource's `attributes` object, defaulting to the empty object. -/
def entityAttrsOf (e : Json) : Json :=
  (objAttr e "attributes").getD (.obj [])

/-- A resource's entity name: its `attributes.name`, defaulting to
`"Unknown Entity"`. -/
def nameOfD (e : Json) : Json :=
  match entityAttrsOf e with
  | .obj kvs => (objLookup kvs "name").getD (.str "Unknown Entity")
  | _ => .str "Unknown Entity"

/-! ## Basic lemmas -/

theorem except_bind_ok {α β : Type} {x : Except PyErr α} {f : α → Except PyErr β}
    {b : β} (h : (x >>= f) = .ok b) : ∃ a, x = .ok a ∧ f a = .ok b := by
  cases x with
  | error e => simp [Bind.bind, Except.bind] at h
  | ok a => exact ⟨a, rfl, by simpa [Bind.bind, Except.bind] using h⟩

theorem find?_replace_self (k v : Json) :
    ∀ tbl : List (Json × Json), tbl.any (fun p => pyEq p.1 k) = true →
      ((tbl.map (fun p => if pyEq p.1 k then (p.1, v) else p)).find?
          (fun p => pyEq p.1 k)).map (fun p => p.2) = some v
  | [], hany => by simp at hany
  | p :: rest, hany => by
      by_cases hp : (pyEq p.1 k) = true
      · rw [List.map_cons, if_pos hp,
          List.find?_cons_of_pos (p := fun q : Json × Json => pyEq q.1 k) _
            (show pyEq (p.1, v).1 k = true from hp)]
        rfl
      · rw [List.map_cons, if_neg hp,
          List.find?_cons_of_neg (p := fun q : Json × Json => pyEq q.1 k) _ hp]
        exact find?_replace_self k v rest
          (by simpa [List.any_cons, Bool.of_not_eq_true hp] using hany)

theorem find?_replace_other (k v i : Json) (hik : pyEq i k = false) :
    ∀ tbl : List (Json × Json),
      ((tbl.map (fun p => if pyEq p.1 k then (p.1, v) else p)).find?
          (fun p => pyEq p.1 i)).map (fun p => p.2) =
        (tbl.find? (fun p => pyEq p.1 i)).map (fun p => p.2)
  | [] => rfl
  | p :: rest => by
      by_cases hp : (pyEq p.1 k) = true
      · have hpi : ((pyEq p.1 i) = true) → False := by
          intro hh
          rw [pyEq_trans_left hp hh] at hik
          exact nomatch hik
        rw [List.map_cons, if_pos hp,
          List.find?_cons_of_neg (p := fun q : Json × Json => pyEq q.1 i) _
            (show pyEq (p.1, v).1 i = true → False from hpi),
          List.find?_cons_of_neg (p := fun q : Json × Json => pyEq q.1 i) _ hpi]
        exact find?_replace_other k v i hik rest
      · rw [List.map_cons, if_neg hp]
        by_cases hpi : (pyEq p.1 i) = true
        · rw [List.find?_cons_of_pos (p := fun q : Json × Json => pyEq q.1 i) _ hpi,
            List.find?_cons_of_pos (p := fun q : Json × Json => pyEq q.1 i) _ hpi]
        · rw [List.find?_cons_of_neg (p := fun q : Json × Json => pyEq q.1 i) _ hpi,
            List.find?_cons_of_neg (p := fun q : Json × Json => pyEq q.1 i) _ hpi]
          exact find?_replace_other k v i hik rest

theorem dictFind_insert_self (tbl : List (Json × Json)) (k v : Json) :
    dictFind (dictInsert tbl k v) k = some v := by
  unfold dictInsert dictFind
  by_cases hany : tbl.any (fun p => pyEq p.1 k) = true
  · rw [if_pos hany]
    exact find?_replace_self k v tbl hany
  · rw [if_neg hany, List.find?_append]
    have hnone : tbl.find? (fun p => pyEq p.1 k) = none := by
      rw [List.find?_eq_none]
      intro p hp hpk
      exact hany (List.any_eq_true.mpr ⟨p, hp, hpk⟩)
    rw [hnone]
    simp [List.find?, pyEq_refl]

theorem dictFind_insert_other (tbl : List (Json × Json)) (k v i : Json)
    (hik : pyEq i k = false) : dictFind (dictInsert tbl k v) i = dictFind tbl i := by
  unfold dictInsert dictFind
  by_cases hany : tbl.any (fun p => pyEq p.1 k) = true
  · rw [if_pos hany]
    exact find?_replace_other k v i hik tbl
  · rw [if_neg hany, List.find?_append]
    have hsing : List.find? (fun p => pyEq p.1 i) [(k, v)] = none := by
      have hki : pyEq k i = false := pyEq_false_symm hik
      simp [List.find?, hki]
    rw [hsing]
    cases tbl.find? (fun p => pyEq p.1 i) <;> rfl

/-- Looking up `pyEq`-equal keys gives the same result. -/
theorem dictFind_congr (tbl : List (Json × Json)) {i j : Json}
    (hij : pyEq i j = true) : dictFind tbl i = dictFind tbl j := by
  have hn : i.pyNorm = j.pyNorm := pyEq_norm hij
  simp only [dictFind, pyEq, hn]

theorem getD_null_eq_entities {o : Option Json}
    (h : (o.getD .null == Json.str "entities") = true) :
    o = some (.str "entities") := by
  cases o with
  | none => exact nomatch h
  | some v => exact congrArg some (eq_of_beq h)

theorem isEntitiesType_obj (kvs : List (String × Json)) :
    isEntitiesType (.obj kvs) =
      ((objLookup kvs "type").getD .null == Json.str "entities") := by
  cases h : objLookup kvs "type" with
  | none =>
    simp only [isEntitiesType, objAttr, h, Option.getD]
    rfl
  | some v =>
    simp only [isEntitiesType, objAttr, h, Option.getD]
    rfl

theorem entityAttrsOf_obj (kvs : List (String × Json)) :
    entityAttrsOf (.obj kvs) = (objLookup kvs "attributes").getD (.obj []) := rfl

theorem isEntityWithId_obj (i : Json) (kvs : List (String × Json)) :
    isEntityWithId i (.obj kvs) =
      (((objLookup kvs "type").getD .null == Json.str "entities") &&
        (match objLookup kvs "id" with
         | some idv => pyEq idv i
         | none => false)) := by
  rw [isEntityWithId, isEntitiesType_obj]
  rfl

/-- If no included resource of type `"entities"` has id `i` (under
Python `==`), building the table leaves lookups of `i` unchanged. -/
theorem entityTableAux_find_none (i : Json) :
    ∀ (items : List Json) (tbl0 tbl : List (Json × Json)),
      entityTableAux tbl0 items = .ok tbl →
      items.filter (isEntityWithId i) = [] →
      dictFind tbl i = dictFind tbl0 i
  | [], tbl0, tbl, h, _ => by
      simp only [entityTableAux] at h
      cases h
      rfl
  | item :: rest, tbl0, tbl, h, hfil => by
      simp only [entityTableAux] at h
      cases item with
      | obj kvs =>
        simp only [pyGet, Bind.bind, Except.bind] at h
        rw [List.filter_cons] at hfil
        by_cases ht : ((objLookup kvs "type").getD .null == Json.str "entities") = true
        · rw [if_pos ht] at h
          cases hid : objLookup kvs "id" with
          | none => rw [pySub] at h; rw [hid] at h; exact nomatch h
          | some idv =>
            rw [pySub] at h; rw [hid] at h
            simp only [pyGet, Bind.bind, Except.bind] at h
            cases hhash : idv.hashable with
            | false => rw [hhash] at h; exact nomatch h
            | true =>
              rw [hhash, if_pos rfl] at h
              have hfalse : isEntityWithId i (.obj kvs) = false := by
                by_contra hc
                rw [if_pos (by simpa using hc)] at hfil
                exact List.cons_ne_nil _ _ hfil
              rw [hfalse, if_neg (by simp)] at hfil
              simp only [isEntityWithId_obj, hid, ht, Bool.true_and] at hfalse
              rw [entityTableAux_find_none i rest _ tbl h hfil,
                dictFind_insert_other tbl0 idv _ i (pyEq_false_symm hfalse)]
        · rw [if_neg ht] at h
          have hfalse : isEntityWithId i (.obj kvs) = false := by
            rw [isEntityWithId_obj]
            rw [Bool.of_not_eq_true ht, Bool.false_and]
          rw [hfalse, if_neg (by simp)] at hfil
          exact entityTableAux_find_none i rest _ tbl h hfil
      | null => exact nomatch h
      | bool b => exact nomatch h
      | num n => exact nomatch h
      | str s => exact nomatch h
      | arr xs => exact nomatch h

/-- Looking up id `i` in the built table yields the `attributes` of the
last included resource of type `"entities"` whose id equals `i` under
Python `==` (later duplicates overwrite earlier dict entries). -/
theorem entityTableAux_find_last (i e : Json) :
    ∀ (items : List Json) (tbl0 tbl : List (Json × Json)),
      entityTableAux tbl0 items = .ok tbl →
      (items.filter (isEntityWithId i)).getLast? = some e →
      dictFind tbl i = some (entityAttrsOf e)
  | [], tbl0, tbl, _, hlast => by simp at hlast
  | item :: rest, tbl0, tbl, h, hlast => by
      simp only [entityTableAux] at h
      cases item with
      | obj kvs =>
        simp only [pyGet, Bind.bind, Except.bind] at h
        rw [List.filter_cons] at hlast
        by_cases ht : ((objLookup kvs "type").getD .null == Json.str "entities") = true
        · rw [if_pos ht] at h
          cases hid : objLookup kvs "id" with
          | none => rw [pySub] at h; rw [hid] at h; exact nomatch h
          | some idv =>
            rw [pySub] at h; rw [hid] at h
            simp only [pyGet, Bind.bind, Except.bind] at h
            cases hhash : idv.hashable with
            | false => rw [hhash] at h; exact nomatch h
            | true =>
              rw [hhash, if_pos rfl] at h
              by_cases hw : isEntityWithId i (.obj kvs) = true
              · rw [hw, if_pos rfl] at hlast
                have hpy : pyEq idv i = true := by
                  simpa only [isEntityWithId_obj, hid, ht, Bool.true_and] using hw
                cases hrf : (rest.filter (isEntityWithId i)) with
                | nil =>
                  rw [hrf, List.getLast?_singleton] at hlast
                  cases hlast
                  rw [entityTableAux_find_none i rest _ tbl h hrf,
                    dictFind_congr _ (pyEq_of_norm (pyEq_norm hpy).symm),
                    dictFind_insert_self tbl0 idv _, entityAttrsOf_obj]
                | cons x xs =>
                  rw [hrf, List.getLast?_cons_cons] at hlast
                  rw [← hrf] at hlast
                  exact entityTableAux_find_last i e rest _ tbl h hlast
              · rw [Bool.of_not_eq_true hw, if_neg (by simp)] at hlast
                exact entityTableAux_find_last i e rest _ tbl h hlast
        · rw [if_neg ht] at h
          have hfalse : isEntityWithId i (.obj kvs) = false := by
            rw [isEntityWithId_obj]
            rw [Bool.of_not_eq_true ht, Bool.false_and]
          rw [hfalse, if_neg (by simp)] at hlast
          exact entityTableAux_find_last i e rest _ tbl h hlast
      | null => exact nomatch h
      | bool b => exact nomatch h
      | num n => exact nomatch h
      | str s => exact nomatch h
      | arr xs => exact nomatch h

/-- On a document with a non-empty `data` array and an `included`
array whose entity table builds cleanly, `get_filings` returns exactly
the records of the filings whose processing succeeds, in order. -/
theorem getFilings_shape (f : Json) (fs inc : List Json)
    (tbl : List (Json × Json)) (htbl : entityTable inc = .ok tbl) :
    getFilings (.obj [("data", .arr (f :: fs)), ("included", .arr inc)]) =
      .ok ((f :: fs).filterMap (tryProcess tbl)) := by
  have hstep :
      getFilings (.obj [("data", .arr (f :: fs)), ("included", .arr inc)]) =
        (entityTable inc >>= fun t => .ok ((f :: fs).filterMap (tryProcess t))) := rfl
  rw [hstep, htbl]
  rfl

/-- Destructor for a successful per-filing processing step: every field
of the record comes from the corresponding source expression. -/
theorem processFiling_ok {tbl : List (Json × Json)} {filing : Json}
    {r : FilingRecord} (h : processFiling tbl filing = .ok r) :
    ∃ a i, pyGet filing "attributes" (.obj []) = .ok a ∧
      relEntityId filing = .ok i ∧
      entityNameFor tbl i = .ok r.entity_name ∧
      processedDate a = .ok r.processed_date ∧
      pyGet filing "id" .null = .ok r.id ∧
      pyGet a "country" .null = .ok r.country ∧
      pyGet a "report_url" .null = .ok r.report_url ∧
      pyGet a "errors_count" (.num 0) = .ok r.errors_count ∧
      pyGet a "warnings_count" (.num 0) = .ok r.warnings_count := by
  unfold processFiling at h
  obtain ⟨a, ha, h⟩ := except_bind_ok h
  obtain ⟨i, hi, h⟩ := except_bind_ok h
  obtain ⟨en, hen, h⟩ := except_bind_ok h
  obtain ⟨pd, hpd, h⟩ := except_bind_ok h
  obtain ⟨idv, hidv, h⟩ := except_bind_ok h
  obtain ⟨co, hco, h⟩ := except_bind_ok h
  obtain ⟨ru, hru, h⟩ := except_bind_ok h
  obtain ⟨ec, hec, h⟩ := except_bind_ok h
  obtain ⟨wc, hwc, h⟩ := except_bind_ok h
  cases h
  exact ⟨a, i, ha, hi, hen, hpd, hidv, hco, hru, hec, hwc⟩

/-- Destructor for a successful `get_filing`. -/
theorem getFiling_ok {fid : String} {response : Json} {r : FilingRecord}
    (h : getFiling fid response = .ok r) :
    ∃ d a items, pyGet response "data" .null = .ok d ∧ d.truthy = true ∧
      pyGet d "attributes" (.obj []) = .ok a ∧
      (∃ incJ, pyGet response "included" (.arr []) = .ok incJ ∧
        pyIter incJ = .ok items) ∧
      findEntityName items = .ok r.entity_name ∧
      processedDate a = .ok r.processed_date ∧
      pyGet d "id" .null = .ok r.id ∧
      pyGet a "country" .null = .ok r.country ∧
      pyGet a "report_url" .null = .ok r.report_url ∧
      pyGet a "errors_count" (.num 0) = .ok r.errors_count ∧
      pyGet a "warnings_count" (.num 0) = .ok r.warnings_count := by
  unfold getFiling at h
  cases ht : response.truthy with
  | false => rw [ht] at h; exact nomatch h
  | true =>
    rw [ht] at h
    simp only [Bool.not_true, Bool.false_eq_true, if_false] at h
    obtain ⟨d, hd, h⟩ := except_bind_ok h
    cases htd : d.truthy with
    | false => rw [htd] at h; exact nomatch h
    | true =>
      rw [htd] at h
      simp only [Bool.not_true, Bool.false_eq_true, if_false] at h
      obtain ⟨a, ha, h⟩ := except_bind_ok h
      obtain ⟨incJ, hincJ, h⟩ := except_bind_ok h
      obtain ⟨items, hitems, h⟩ := except_bind_ok h
      obtain ⟨en, hen, h⟩ := except_bind_ok h
      obtain ⟨pd, hpd, h⟩ := except_bind_ok h
      obtain ⟨idv, hidv, h⟩ := except_bind_ok h
      obtain ⟨co, hco, h⟩ := except_bind_ok h
      obtain ⟨ru, hru, h⟩ := except_bind_ok h
      obtain ⟨ec, hec, h⟩ := except_bind_ok h
      obtain ⟨wc, hwc, h⟩ := except_bind_ok h
      cases h
      exact ⟨d, a, items, hd, htd, ha, ⟨incJ, hincJ, hitems⟩,
        hen, hpd, hidv, hco, hru, hec, hwc⟩

/-- The `included` scan of `get_filing` agrees with "first resource of
type entities" (`List.find?`): it yields that resource's default-named
attribute name, and `"Unknown Entity"` when there is none. -/
theorem findEntityName_spec :
    ∀ (items : List Json) (v : Json), findEntityName items = .ok v →
      (∀ e, items.find? isEntitiesType = some e → v = nameOfD e) ∧
      (items.find? isEntitiesType = none → v = .str "Unknown Entity")
  | [], v, h => by
      refine ⟨fun e he => by simp at he, fun _ => ?_⟩
      simp only [findEntityName] at h
      exact (Except.ok.inj h).symm
  | item :: rest, v, h => by
      simp only [findEntityName] at h
      cases item with
      | obj kvs =>
        simp only [pyGet, Bind.bind, Except.bind] at h
        by_cases ht : ((objLookup kvs "type").getD .null == Json.str "entities") = true
        · rw [if_pos ht] at h
          have hfirst : (Json.obj kvs :: rest).find? isEntitiesType = some (.obj kvs) :=
            List.find?_cons_of_pos _ (by rw [isEntitiesType_obj]; exact ht)
          refine ⟨fun e he => ?_, fun hnone => ?_⟩
          · rw [hfirst] at he
            cases he
            cases ha : (objLookup kvs "attributes").getD (.obj []) with
            | obj akvs =>
              rw [ha] at h
              simp only [pyGet] at h
              rw [nameOfD, entityAttrsOf_obj, ha]
              exact (Except.ok.inj h).symm
            | null => rw [ha] at h; exact nomatch h
            | bool b => rw [ha] at h; exact nomatch h
            | num n => rw [ha] at h; exact nomatch h
            | str s => rw [ha] at h; exact nomatch h
            | arr xs => rw [ha] at h; exact nomatch h
          · rw [hfirst] at hnone
            exact nomatch hnone
          -- (the pyGet on non-object attributes fails, contradicting h)
        · rw [if_neg ht] at h
          have hskip : isEntitiesType (.obj kvs) = false := by
            rw [isEntitiesType_obj]
            exact Bool.of_not_eq_true ht
          have := findEntityName_spec rest v h
          refine ⟨fun e he => ?_, fun hnone => ?_⟩
          · rw [List.find?_cons_of_neg _ (by simp [hskip])] at he
            exact this.1 e he
          · rw [List.find?_cons_of_neg _ (by simp [hskip])] at hnone
            exact this.2 hnone
      | null => exact nomatch h
      | bool b => exact nomatch h
      | num n => exact nomatch h
      | str s => exact nomatch h
      | arr xs => exact nomatch h

/-- A character list containing `'T'` splits as the `'T'`-free prefix,
`'T'`, and a remainder. -/
theorem takeWhile_before_first :
    ∀ l : List Char, l.contains 'T' = true →
      ∃ rest, l = l.takeWhile (fun c => c != 'T') ++ 'T' :: rest ∧
        (l.takeWhile (fun c => c != 'T')).contains 'T' = false
  | [], h => by simp at h
  | c :: l, h => by
      by_cases hc : c = 'T'
      · subst hc
        refine ⟨l, ?_, ?_⟩
        · rw [List.takeWhile_cons]
          simp
        · rw [List.takeWhile_cons]
          simp
      · have hcT : (c != 'T') = true := by simp [hc]
        have hl : l.contains 'T' = true := by
          rw [List.contains_cons] at h
          simpa [beq_iff_eq, hc, Ne.symm hc] using h
        obtain ⟨rest, hsplit, hfree⟩ := takeWhile_before_first l hl
        refine ⟨rest, ?_, ?_⟩
        · rw [List.takeWhile_cons, if_pos hcT, List.cons_append]
          exact congrArg (c :: ·) hsplit
        · rw [List.takeWhile_cons, if_pos hcT]
          simp only [List.contains_cons, Bool.or_eq_false_iff]
          exact ⟨by simp [Ne.symm hc], hfree⟩

/-- A string whose characters include `'T'` is truthy. -/
theorem truthy_of_containsT (s : String) (h : s.data.contains 'T' = true) :
    (Json.str s).truthy = true := by
  simp only [Json.truthy, bne_iff_ne, ne_eq]
  intro he
  subst he
  simp at h

/-- `filterMap` keeps the length when the function succeeds on every
element. -/
theorem length_filterMap_all_some {α β : Type} (g : α → Option β) :
    ∀ l : List α, (∀ a ∈ l, (g a).isSome = true) →
      (l.filterMap g).length = l.length
  | [], _ => rfl
  | a :: l, h => by
      obtain ⟨b, hb⟩ := Option.isSome_iff_exists.mp (h a (List.mem_cons_self a l))
      rw [List.filterMap_cons, hb, List.length_cons, List.length_cons,
        length_filterMap_all_some g l (fun x hx => h x (List.mem_cons_of_mem a hx))]

/-- Line 101: a falsy response or a falsy/absent `data` short-circuits
to the empty list. -/
theorem getFilings_empty (response : Json)
    (h : response.truthy = false ∨
      (∃ d, pyGet response "data" .null = .ok d ∧ d.truthy = false)) :
    getFilings response = .ok [] := by
  unfold getFilings
  cases ht : response.truthy with
  | false => rfl
  | true =>
    rcases h with h | ⟨d, hd, hdt⟩
    · exact absurd ht (by simp [h])
    · rw [hd]
      simp only [Bind.bind, Except.bind]
      rw [hdt]
      rfl

/-- Lines 169-170: a falsy response or a falsy/absent `data` raises the
not-found exception in `get_filing`. -/
theorem getFiling_no_data (fid : String) (response : Json)
    (h : response.truthy = false ∨
      (∃ d, pyGet response "data" .null = .ok d ∧ d.truthy = false)) :
    getFiling fid response = .error (notFoundFiling fid) := by
  unfold getFiling
  cases ht : response.truthy with
  | false => rfl
  | true =>
    rcases h with h | ⟨d, hd, hdt⟩
    · exact absurd ht (by simp [h])
    · rw [hd]
      simp only [Bind.bind, Except.bind]
      rw [hdt]
      rfl

/-- Lines 217-218: the same for `get_entity`. -/
theorem getEntity_no_data (eid : String) (response : Json)
    (h : response.truthy = false ∨
      (∃ d, pyGet response "data" .null = .ok d ∧ d.truthy = false)) :
    getEntity eid response = .error (notFoundEntity eid) := by
  unfold getEntity
  cases ht : response.truthy with
  | false => rfl
  | true =>
    rcases h with h | ⟨d, hd, hdt⟩
    · exact absurd ht (by simp [h])
    · rw [hd]
      simp only [Bind.bind, Except.bind]
      rw [hdt]
      rfl

/-! ## Concrete documents used to instantiate the claims -/

/-- An included entity resource named "First Entity" with id `"e9"`. -/
def entFirst : Json := .obj [("type", .str "entities"), ("id", .str "e9"),
  ("attributes", .obj [("name", .str "First Entity")])]

/-- An included entity resource named "Second Entity" with id `"e1"`. -/
def entSecond : Json := .obj [("type", .str "entities"), ("id", .str "e1"),
  ("attributes", .obj [("name", .str "Second Entity")])]

/-- A filing whose relationship points at entity `"e1"`. -/
def filingRelE1 : Json := .obj [("id", .str "f1"), ("attributes", .obj []),
  ("relationships", .obj [("entity", .obj [("data", .obj [("id", .str "e1")])])])]

/-- The single-filing response for `filingRelE1` with two included
entities; the relationship matches the second one. -/
def docTwoEntities : Json :=
  .obj [("data", filingRelE1), ("included", .arr [entFirst, entSecond])]

/-- What `get_filing` returns on `docTwoEntities`. -/
def recFirstEntity : FilingRecord :=
  { id := .str "f1", entity_name := .str "First Entity", processed_date := none,
    country := .null, report_url := .null, errors_count := .num 0,
    warnings_count := .num 0 }

/-- An included entity resource with id `"e1"` and no name attribute. -/
def entNameless : Json := .obj [("type", .str "entities"), ("id", .str "e1"),
  ("attributes", .obj [])]

/-- The record for `filingRelE1` when the only matching entity has no
name. -/
def recUnknownEntity : FilingRecord :=
  { id := .str "f1", entity_name := .str "Unknown Entity", processed_date := none,
    country := .null, report_url := .null, errors_count := .num 0,
    warnings_count := .num 0 }

/-- A filing whose relationship id is the empty string. -/
def filingEmptyRelId : Json := .obj [("id", .str "f1"), ("attributes", .obj []),
  ("relationships", .obj [("entity", .obj [("data", .obj [("id", .str "")])])])]

/-- An included entity resource named "Acme" whose id is the empty
string. -/
def entEmptyId : Json := .obj [("type", .str "entities"), ("id", .str ""),
  ("attributes", .obj [("name", .str "Acme")])]

/-- The list response pairing `filingEmptyRelId` with `entEmptyId`:
the relationship id equals the included entity's id, yet both are the
empty string. -/
def docEmptyIdMatch : Json :=
  .obj [("data", .arr [filingEmptyRelId]), ("included", .arr [entEmptyId])]

/-- An included entity resource named "B" with id `"e1"` — a duplicate
of `entSecond`'s id under a different name. -/
def entNameB : Json := .obj [("type", .str "entities"), ("id", .str "e1"),
  ("attributes", .obj [("name", .str "B")])]

/-- A list response where two included entities share id `"e1"` with
names "B" then "Second Entity"; the filing's relationship id is
`"e1"`. -/
def docDupNames : Json :=
  .obj [("data", .arr [filingRelE1]), ("included", .arr [entNameB, entSecond])]

/-- The record the program returns on `docDupNames`: the dict build
lets the later duplicate overwrite the earlier one. -/
def recRelSecond : FilingRecord :=
  { id := .str "f1", entity_name := .str "Second Entity", processed_date := none,
    country := .null, report_url := .null, errors_count := .num 0,
    warnings_count := .num 0 }

/-- An included entity resource named "Z" with id `"e1"`. -/
def entNamedZ : Json := .obj [("type", .str "entities"), ("id", .str "e1"),
  ("attributes", .obj [("name", .str "Z")])]

/-- A list response where two included entities share id `"e1"`: the
first lacks a name, the second is named "Z"; the filing's relationship
id is `"e1"`. -/
def docDupIds : Json :=
  .obj [("data", .arr [filingRelE1]), ("included", .arr [entNameless, entNamedZ])]

/-- The record the program returns on `docDupIds`. -/
def recNamedZ : FilingRecord :=
  { id := .str "f1", entity_name := .str "Z", processed_date := none,
    country := .null, report_url := .null, errors_count := .num 0,
    warnings_count := .num 0 }

/-- A well-formed filing with a processed timestamp, used as a good
record beside a malformed one. -/
def filingGood : Json := .obj [("id", .str "g1"),
  ("attributes", .obj [("processed", .str "2024-03-01T10:00:00Z"),
    ("country", .str "US")]),
  ("relationships", .obj [("entity", .obj [("data", .obj [("id", .str "e1")])])])]

/-- The record `get_filings` builds for `filingGood` against a table
holding `entSecond`. -/
def recGood : FilingRecord :=
  { id := .str "g1", entity_name := .str "Second Entity",
    processed_date := some "2024-03-01", country := .str "US",
    report_url := .null, errors_count := .num 0, warnings_count := .num 0 }

/-- The entity table built from `[entSecond]`. -/
def tblSecond : List (Json × Json) :=
  [(.str "e1", .obj [("name", .str "Second Entity")])]

/-- A list response pairing `filingGood` with included `entSecond`. -/
def docGoodMatch : Json :=
  .obj [("data", .arr [filingGood]), ("included", .arr [entSecond])]

/-- A list response with one malformed filing among three. -/
def docOneBad : Json :=
  .obj [("data", .arr [filingGood, .str "oops", filingRelE1]),
    ("included", .arr [entSecond])]

/-! ## The claims -/

/-- C4: for every list-filings response document whose `data` entry is
absent, `null`, or an empty array, `get_filings` returns the empty
sequence and does not raise an error. -/
theorem C4_empty_data (kvs : List (String × Json)) :
    (objLookup kvs "data" = none → getFilings (.obj kvs) = .ok []) ∧
    (objLookup kvs "data" = some .null → getFilings (.obj kvs) = .ok []) ∧
    (objLookup kvs "data" = some (.arr []) → getFilings (.obj kvs) = .ok []) := by
  refine ⟨fun h => ?_, fun h => ?_, fun h => ?_⟩
  · exact getFilings_empty _ (Or.inr ⟨.null, by simp [pyGet, h], rfl⟩)
  · exact getFilings_empty _ (Or.inr ⟨.null, by simp [pyGet, h], rfl⟩)
  · exact getFilings_empty _ (Or.inr ⟨.arr [], by simp [pyGet, h], rfl⟩)

theorem C4_empty_data_witness :
    getFilings (.obj [("meta", .null)]) = .ok [] ∧
    getFilings (.obj [("data", .null)]) = .ok [] ∧
    getFilings (.obj [("data", .arr [])]) = .ok [] :=
  ⟨(C4_empty_data [("meta", .null)]).1 rfl,
   (C4_empty_data [("data", .null)]).2.1 rfl,
   (C4_empty_data [("data", .arr [])]).2.2 rfl⟩

/-- C5: for every requested id `x`, when the upstream response (an
object) lacks a `data` entry, `get_filing` and `get_entity` fail with
the explicitly raised not-found exception — no record is returned —
and the message contains `x`. -/
theorem C5_not_found (x : String) (kvs : List (String × Json))
    (h : objLookup kvs "data" = none) :
    getFiling x (.obj kvs) =
      .error (.exn ("Filing with ID '" ++ x ++ "' not found")) ∧
    getEntity x (.obj kvs) =
      .error (.exn ("Entity with ID '" ++ x ++ "' not found")) ∧
    (∃ p q, "Filing with ID '" ++ x ++ "' not found" = p ++ x ++ q) ∧
    (∃ p q, "Entity with ID '" ++ x ++ "' not found" = p ++ x ++ q) := by
  refine ⟨?_, ?_, ⟨"Filing with ID '", "' not found", rfl⟩,
    ⟨"Entity with ID '", "' not found", rfl⟩⟩
  · exact getFiling_no_data x _ (Or.inr ⟨.null, by simp [pyGet, h], rfl⟩)
  · exact getEntity_no_data x _ (Or.inr ⟨.null, by simp [pyGet, h], rfl⟩)

theorem C5_not_found_witness :
    getFiling "X" (.obj [("meta", .null)]) =
      .error (.exn ("Filing with ID '" ++ "X" ++ "' not found")) ∧
    getEntity "X" (.obj [("meta", .null)]) =
      .error (.exn ("Entity with ID '" ++ "X" ++ "' not found")) :=
  ⟨(C5_not_found "X" [("meta", .null)] rfl).1,
   (C5_not_found "X" [("meta", .null)] rfl).2.1⟩

/-- C7: a non-empty country argument puts `filter[country]`, equal to
the upper-cased and whitespace-trimmed country string, into the
outgoing query parameters; in particular `"us"` yields `"US"`. -/
theorem C7_country_filter (c : String) (ps pn : Int) (hc : c ≠ "") :
    paramLookup (buildApiParams (some c) ps pn) "filter[country]" =
      some (pyStrip (pyUpper c)) ∧
    paramLookup (buildApiParams (some "us") ps pn) "filter[country]" =
      some "US" := by
  constructor
  · have hb : buildApiParams (some c) ps pn =
        if (c != "") = true then
          [("page[size]", toString ps), ("page[number]", toString pn),
           ("sort", "-processed"), ("include", "entity")] ++
            [("filter[country]", pyStrip (pyUpper c))]
        else
          [("page[size]", toString ps), ("page[number]", toString pn),
           ("sort", "-processed"), ("include", "entity")] := rfl
    rw [hb, if_pos (by simpa using hc)]
    rfl
  · rfl

theorem C7_country_filter_witness :
    paramLookup (buildApiParams (some "us") 5 1) "filter[country]" =
      some (pyStrip (pyUpper "us")) ∧
    paramLookup (buildApiParams (some "us") 5 1) "filter[country]" =
      some "US" :=
  ⟨(C7_country_filter "us" 5 1 (by decide)).1,
   (C7_country_filter "us" 5 1 (by decide)).2⟩

/-- C9: an empty-string country argument adds no `filter[country]`
parameter — the parameters coincide with those of no country filter. -/
theorem C9_empty_country (ps pn : Int) :
    paramLookup (buildApiParams (some "") ps pn) "filter[country]" = none ∧
    buildApiParams (some "") ps pn = buildApiParams none ps pn :=
  ⟨rfl, rfl⟩

theorem processedDate_obj (kvs : List (String × Json)) :
    processedDate (.obj kvs) =
      (let p := (objLookup kvs "processed").getD (.str "")
       if p.truthy = true then
         (pyContainsT p >>= fun c =>
           if c = true then
             match p with
             | .str s => .ok (some (splitTHead s))
             | _ => .error .typeErr
           else .ok none)
       else .ok none) := rfl

/-- C2: the `processed` timestamp `"2024-03-01T10:00:00Z"` yields
processed_date `"2024-03-01"`; any `processed` string containing `'T'`
yields the prefix before the first `'T'`; an empty or absent
`processed` yields `none`; and the records of both `get_filings`
(per-filing processing) and `get_filing` take their processed_date
from exactly this computation on their `attributes`. -/
theorem C2_processed_date :
    processedDate (.obj [("processed", .str "2024-03-01T10:00:00Z")]) =
      .ok (some "2024-03-01") ∧
    (∀ kvs s, objLookup kvs "processed" = some (.str s) →
      s.data.contains 'T' = true →
      ∃ rest, processedDate (.obj kvs) = .ok (some (splitTHead s)) ∧
        s.data = (splitTHead s).data ++ 'T' :: rest ∧
        (splitTHead s).data.contains 'T' = false) ∧
    (∀ kvs, objLookup kvs "processed" = none →
      processedDate (.obj kvs) = .ok none) ∧
    (∀ kvs, objLookup kvs "processed" = some (.str "") →
      processedDate (.obj kvs) = .ok none) ∧
    (∀ tbl filing r a, processFiling tbl filing = .ok r →
      pyGet filing "attributes" (.obj []) = .ok a →
      processedDate a = .ok r.processed_date) ∧
    (∀ fid response r d a, getFiling fid response = .ok r →
      pyGet response "data" .null = .ok d →
      pyGet d "attributes" (.obj []) = .ok a →
      processedDate a = .ok r.processed_date) := by
  refine ⟨rfl, ?_, ?_, ?_, ?_, ?_⟩
  · intro kvs s hlook hT
    obtain ⟨rest, hsplit, hfree⟩ := takeWhile_before_first s.data hT
    refine ⟨rest, ?_, hsplit, hfree⟩
    rw [processedDate_obj kvs]
    simp only [hlook, Option.getD]
    rw [truthy_of_containsT s hT]
    simp only [if_true, pyContainsT, Bind.bind, Except.bind]
    rw [hT]
    simp only [if_true]
  · intro kvs hlook
    rw [processedDate_obj kvs]
    simp only [hlook, Option.getD]
    rfl
  · intro kvs hlook
    rw [processedDate_obj kvs]
    simp only [hlook, Option.getD]
    rfl
  · intro tbl filing r a hr ha
    obtain ⟨a', i, ha', hri, hen, hpd, hrest⟩ := processFiling_ok hr
    have h2 : a' = a := Except.ok.inj (ha'.symm.trans ha)
    subst h2
    exact hpd
  · intro fid response r d a h hd ha
    obtain ⟨d', a', items, hd', hdt, ha', hinc, hen, hpd, hrest⟩ := getFiling_ok h
    have h2 : d' = d := Except.ok.inj (hd'.symm.trans hd)
    subst h2
    have h3 : a' = a := Except.ok.inj (ha'.symm.trans ha)
    subst h3
    exact hpd

theorem C2_processed_date_witness :
    (∃ rest, processedDate (.obj [("processed", .str "2024-03-01T10:00:00Z")]) =
        .ok (some (splitTHead "2024-03-01T10:00:00Z")) ∧
      "2024-03-01T10:00:00Z".data =
        (splitTHead "2024-03-01T10:00:00Z").data ++ 'T' :: rest ∧
      (splitTHead "2024-03-01T10:00:00Z").data.contains 'T' = false) ∧
    processedDate (.obj [("country", .str "US")]) = .ok none ∧
    processedDate (.obj [("processed", .str "")]) = .ok none :=
  ⟨C2_processed_date.2.1 [("processed", .str "2024-03-01T10:00:00Z")]
      "2024-03-01T10:00:00Z" rfl (by decide),
   C2_processed_date.2.2.1 [("country", .str "US")] rfl,
   C2_processed_date.2.2.2.1 [("processed", .str "")] rfl⟩

/-- C3: `get_filing` resolves the entity name from the first included
resource of type `"entities"` — its `attributes.name`, defaulting to
`"Unknown Entity"` — without matching that resource's id against the
filing's relationship id (the relationship plays no role below), and
`"Unknown Entity"` when no included resource has that type. -/
theorem C3_first_included_entity (fid : String) (response : Json)
    (r : FilingRecord) (items : List Json)
    (h : getFiling fid response = .ok r)
    (hitems : ∃ incJ, pyGet response "included" (.arr []) = .ok incJ ∧
      pyIter incJ = .ok items) :
    (∀ e, items.find? isEntitiesType = some e → r.entity_name = nameOfD e) ∧
    (items.find? isEntitiesType = none →
      r.entity_name = .str "Unknown Entity") := by
  obtain ⟨d, a, items', hd, hdt, ha, ⟨incJ', hincJ', hitems'⟩, hen, hrest⟩ :=
    getFiling_ok h
  obtain ⟨incJ, hincJ, hpit⟩ := hitems
  have h2 : incJ' = incJ := Except.ok.inj (hincJ'.symm.trans hincJ)
  subst h2
  have h3 : items' = items := Except.ok.inj (hitems'.symm.trans hpit)
  subst h3
  have hspec := findEntityName_spec items' r.entity_name hen
  exact ⟨fun e he => hspec.1 e he, fun hn => hspec.2 hn⟩

theorem C3_first_included_entity_witness :
    getFiling "f1" docTwoEntities = .ok recFirstEntity ∧
    recFirstEntity.entity_name = nameOfD entFirst ∧
    nameOfD entFirst = .str "First Entity" :=
  ⟨rfl,
   (C3_first_included_entity "f1" docTwoEntities recFirstEntity
      [entFirst, entSecond] rfl ⟨.arr [entFirst, entSecond], rfl, rfl⟩).1
      entFirst rfl,
   rfl⟩

/-- C8: a record built by `get_filings` per-filing processing or by
`get_filing` whose upstream `attributes` object lacks `errors_count`
has errors_count 0, and likewise for `warnings_count`. -/
theorem C8_count_defaults :
    (∀ tbl filing r akvs, processFiling tbl filing = Except.ok r →
      pyGet filing "attributes" (.obj []) = .ok (.obj akvs) →
      (objLookup akvs "errors_count" = none → r.errors_count = .num 0) ∧
      (objLookup akvs "warnings_count" = none → r.warnings_count = .num 0)) ∧
    (∀ fid response r d akvs, getFiling fid response = .ok r →
      pyGet response "data" .null = .ok d →
      pyGet d "attributes" (.obj []) = .ok (.obj akvs) →
      (objLookup akvs "errors_count" = none → r.errors_count = .num 0) ∧
      (objLookup akvs "warnings_count" = none → r.warnings_count = .num 0)) := by
  constructor
  · intro tbl filing r akvs hr ha
    obtain ⟨a', i, ha', hri, hen, hpd, hid, hco, hru, hec, hwc⟩ :=
      processFiling_ok hr
    have h2 : a' = .obj akvs := Except.ok.inj (ha'.symm.trans ha)
    subst h2
    constructor
    · intro hnone
      simp only [pyGet, hnone, Option.getD] at hec
      exact (Except.ok.inj hec).symm
    · intro hnone
      simp only [pyGet, hnone, Option.getD] at hwc
      exact (Except.ok.inj hwc).symm
  · intro fid response r d akvs h hd ha
    obtain ⟨d', a', items, hd', hdt, ha', hinc, hen, hpd, hid, hco, hru,
      hec, hwc⟩ := getFiling_ok h
    have h2 : d' = d := Except.ok.inj (hd'.symm.trans hd)
    subst h2
    have h3 : a' = .obj akvs := Except.ok.inj (ha'.symm.trans ha)
    subst h3
    constructor
    · intro hnone
      simp only [pyGet, hnone, Option.getD] at hec
      exact (Except.ok.inj hec).symm
    · intro hnone
      simp only [pyGet, hnone, Option.getD] at hwc
      exact (Except.ok.inj hwc).symm

theorem C8_count_defaults_witness :
    processFiling [] (.obj [("id", .str "f1"), ("attributes", .obj [])]) =
      .ok recUnknownEntity ∧
    recUnknownEntity.errors_count = .num 0 ∧
    recUnknownEntity.warnings_count = .num 0 :=
  ⟨rfl,
   (C8_count_defaults.1 [] (.obj [("id", .str "f1"), ("attributes", .obj [])])
      recUnknownEntity [] rfl rfl).1 rfl,
   (C8_count_defaults.1 [] (.obj [("id", .str "f1"), ("attributes", .obj [])])
      recUnknownEntity [] rfl rfl).2 rfl⟩

/-- C10 (counterexample): the filing's relationship id `"e1"` matches
the included entities resource `entNameless`, whose attributes lack a
`name` key, so the claim requires entity_name `"Unknown Entity"`; but
a later included resource with the same id and name `"Z"` overwrites
the dict entry (lines 105-108) and the program returns `"Z"`. -/
theorem C10_counterexample :
    relEntityId filingRelE1 = .ok (.str "e1") ∧
    isEntityWithId (.str "e1") entNameless = true ∧
    objAttr (entityAttrsOf entNameless) "name" = none ∧
    getFilings docDupIds = .ok [recNamedZ] ∧
    recNamedZ.entity_name ≠ .str "Unknown Entity" :=
  ⟨rfl, rfl, rfl, rfl, by decide⟩

/-- C10 (amended): in the list operation, a filing whose relationship
id matches included entity resources (Python `==`) such that the
*last* matching resource's attributes lack a `name` key gets
entity_name `"Unknown Entity"` — the same default as an unmatched
filing (the dict build lets later duplicate-id resources overwrite
earlier ones, so only the last match counts). -/
theorem C10_matched_entity_without_name (inc : List Json)
    (tbl : List (Json × Json)) (filing : Json) (r : FilingRecord)
    (i e : Json) (ekvs : List (String × Json))
    (htbl : entityTable inc = .ok tbl)
    (hr : processFiling tbl filing = .ok r)
    (hi : relEntityId filing = .ok i)
    (hlast : (inc.filter (isEntityWithId i)).getLast? = some e)
    (hattrs : entityAttrsOf e = .obj ekvs)
    (hname : objLookup ekvs "name" = none) :
    r.entity_name = .str "Unknown Entity" := by
  obtain ⟨a, i', ha, hi', hen, hrest⟩ := processFiling_ok hr
  have h2 : i' = i := Except.ok.inj (hi'.symm.trans hi)
  subst h2
  have hfind : dictFind tbl i' = some (entityAttrsOf e) :=
    entityTableAux_find_last i' e inc [] tbl htbl hlast
  rw [hattrs] at hfind
  unfold entityNameFor at hen
  cases htr : i'.truthy with
  | true =>
    rw [if_pos htr] at hen
    cases hhash : i'.hashable with
    | false => rw [hhash] at hen; exact nomatch hen
    | true =>
      rw [hhash, if_pos rfl, hfind] at hen
      simp only [pyGet, hname, Option.getD] at hen
      exact (Except.ok.inj hen).symm
  | false =>
    rw [if_neg (by simp [htr])] at hen
    exact (Except.ok.inj hen).symm

theorem C10_matched_entity_without_name_witness :
    processFiling [(.str "e1", .obj [])] filingRelE1 = .ok recUnknownEntity ∧
    recUnknownEntity.entity_name = .str "Unknown Entity" :=
  ⟨rfl,
   C10_matched_entity_without_name [entNameless] [(.str "e1", .obj [])]
     filingRelE1 recUnknownEntity (.str "e1") entNameless [] rfl rfl rfl rfl
     rfl rfl⟩

/-- C1 (counterexample), two scenarios.  (a) A filing whose
relationship id is the empty string, with an included entity of type
`"entities"` carrying the same (empty-string) id and name `"Acme"`:
the claim requires entity_name `"Acme"`, but the code's truthiness
guard (`if entity_id and ...`) skips the lookup and returns
`"Unknown Entity"` — forcing the amendment's truthiness condition.
(b) Two included entities share the (truthy) id `"e1"` with names
`"B"` and then `"Second Entity"`: the first matches the filing's
relationship id, so the claim requires its name `"B"`, but the dict
build overwrites it with the later duplicate and the program returns
`"Second Entity"` — forcing the amendment's last-resource condition. -/
theorem C1_counterexample :
    (relEntityId filingEmptyRelId = .ok (.str "") ∧
      isEntityWithId (.str "") entEmptyId = true ∧
      objAttr (entityAttrsOf entEmptyId) "name" = some (.str "Acme") ∧
      getFilings docEmptyIdMatch = .ok [recUnknownEntity] ∧
      recUnknownEntity.entity_name ≠ .str "Acme") ∧
    (relEntityId filingRelE1 = .ok (.str "e1") ∧
      isEntityWithId (.str "e1") entNameB = true ∧
      objAttr (entityAttrsOf entNameB) "name" = some (.str "B") ∧
      getFilings docDupNames = .ok [recRelSecond] ∧
      recRelSecond.entity_name ≠ .str "B") :=
  ⟨⟨rfl, rfl, rfl, rfl, by decide⟩, ⟨rfl, rfl, rfl, rfl, by decide⟩⟩

/-- C1 (amended): for every list response and filing in its data array
whose processing yields a record: if the relationship id is truthy and
equals — as Python values (`==`) — the id of included resources of
type `"entities"`, entity_name is the name attribute of the last such
resource (when present — the dict build lets later duplicates
overwrite earlier ones, see the counterexample's second scenario);
otherwise (relationship absent, id absent or falsy, or no matching
included entity) entity_name is exactly `"Unknown Entity"`.  The
record is among those returned. -/
theorem C1_entity_resolution (f : Json) (fs inc : List Json)
    (tbl : List (Json × Json)) (filing : Json) (r : FilingRecord) (i : Json)
    (htbl : entityTable inc = .ok tbl)
    (hmem : filing ∈ f :: fs)
    (hr : processFiling tbl filing = .ok r)
    (hi : relEntityId filing = .ok i) :
    (∃ recs, getFilings (.obj [("data", .arr (f :: fs)),
        ("included", .arr inc)]) = .ok recs ∧ r ∈ recs) ∧
    (∀ e ekvs n, i.truthy = true →
      (inc.filter (isEntityWithId i)).getLast? = some e →
      entityAttrsOf e = .obj ekvs →
      objLookup ekvs "name" = some n →
      r.entity_name = n) ∧
    (i.truthy = false ∨ inc.filter (isEntityWithId i) = [] →
      r.entity_name = .str "Unknown Entity") := by
  obtain ⟨a, i', ha, hi', hen, hrest⟩ := processFiling_ok hr
  have h2 : i' = i := Except.ok.inj (hi'.symm.trans hi)
  subst h2
  refine ⟨?_, ?_, ?_⟩
  · refine ⟨(f :: fs).filterMap (tryProcess tbl), getFilings_shape f fs inc tbl htbl, ?_⟩
    exact List.mem_filterMap.mpr ⟨filing, hmem, by simp [tryProcess, hr]⟩
  · intro e ekvs n htr hlast hattrs hname
    have hfind : dictFind tbl i' = some (entityAttrsOf e) :=
      entityTableAux_find_last i' e inc [] tbl htbl hlast
    rw [hattrs] at hfind
    unfold entityNameFor at hen
    rw [if_pos htr] at hen
    cases hhash : i'.hashable with
    | false => rw [hhash] at hen; exact nomatch hen
    | true =>
      rw [hhash, if_pos rfl, hfind] at hen
      simp only [pyGet, hname, Option.getD_some] at hen
      exact (Except.ok.inj hen).symm
  · intro hcase
    unfold entityNameFor at hen
    rcases hcase with htr | hfil
    · rw [if_neg (by simp [htr])] at hen
      exact (Except.ok.inj hen).symm
    · cases htr : i'.truthy with
      | false =>
        rw [if_neg (by simp [htr])] at hen
        exact (Except.ok.inj hen).symm
      | true =>
        rw [if_pos htr] at hen
        cases hhash : i'.hashable with
        | false => rw [hhash] at hen; exact nomatch hen
        | true =>
          rw [hhash, if_pos rfl] at hen
          have hfind : dictFind tbl i' = none := by
            rw [entityTableAux_find_none i' inc [] tbl htbl hfil]
            rfl
          rw [hfind] at hen
          exact (Except.ok.inj hen).symm

theorem C1_entity_resolution_witness :
    (∃ recs, getFilings docGoodMatch = .ok recs ∧ recGood ∈ recs) ∧
    recGood.entity_name = .str "Second Entity" := by
  have h := C1_entity_resolution filingGood [] [entSecond] tblSecond filingGood
    recGood (.str "e1") rfl (List.mem_singleton.mpr rfl) rfl rfl
  exact ⟨h.1, h.2.1 entSecond [("name", .str "Second Entity")]
    (.str "Second Entity") rfl rfl rfl rfl⟩

/-- C6: with exactly one filing whose per-filing processing raises
(the others all succeeding), `get_filings` succeeds and returns the
records of the well-formed filings, in upstream order — N−1 of them. -/
theorem C6_partial_failure (inc l1 l2 : List Json) (bad : Json)
    (tbl : List (Json × Json))
    (htbl : entityTable inc = .ok tbl)
    (hgood : ∀ f ∈ l1 ++ l2, (tryProcess tbl f).isSome = true)
    (hbad : tryProcess tbl bad = none) :
    getFilings (.obj [("data", .arr (l1 ++ bad :: l2)),
      ("included", .arr inc)]) = .ok ((l1 ++ l2).filterMap (tryProcess tbl)) ∧
    ((l1 ++ l2).filterMap (tryProcess tbl)).length =
      (l1 ++ bad :: l2).length - 1 := by
  constructor
  · have hne : l1 ++ bad :: l2 ≠ [] := by
      intro hnil
      exact absurd (List.append_eq_nil.mp hnil).2 (List.cons_ne_nil bad l2)
    obtain ⟨f, fs, hcons⟩ := List.exists_cons_of_ne_nil hne
    rw [hcons, getFilings_shape f fs inc tbl htbl, ← hcons,
      List.filterMap_append, List.filterMap_cons, hbad,
      ← List.filterMap_append]
  · rw [length_filterMap_all_some (tryProcess tbl) (l1 ++ l2) hgood]
    simp only [List.length_append, List.length_cons]
    omega

theorem C6_partial_failure_witness :
    getFilings docOneBad =
      .ok (([filingGood] ++ [filingRelE1]).filterMap (tryProcess tblSecond)) ∧
    (([filingGood] ++ [filingRelE1]).filterMap (tryProcess tblSecond)).length =
      ([filingGood] ++ Json.str "oops" :: [filingRelE1]).length - 1 :=
  C6_partial_failure [entSecond] [filingGood] [filingRelE1] (.str "oops")
    tblSecond rfl (by decide) rfl
